import Mathlib

/-!
# clickMe.js: a shallow embedding

The plugin in `src/clickme.js` keeps one module-level variable (`settings`), registers one
callback (`eventHandler`) for `click` on the document and for `resize` on the window, and
edits the class lists of the elements that carry the `data-click-me` attribute.

The embedding is by explicit state passing.  A `Page` holds everything the plugin reads or
writes: the feature flags behind `supports`, the `defaults` object, the `settings` variable,
the elements of the document in tree order, the registrations of `eventHandler` on the
document and on the window, and the console.  A JavaScript exception is part of the result
of a call: every operation returns the state it leaves behind together with the error it
raised, if any, because the effects performed before a `throw` stay in place.

The browser operations the source calls are modelled after the DOM Standard:
`classList.add` / `classList.remove` reject the empty string (`SyntaxError`) and any token
that contains ASCII whitespace (`InvalidCharacterError`); `addEventListener` does not add a
registration that is already present; `removeEventListener` removes the matching
registration; an exception raised inside a listener is reported and does not reach the
dispatcher.
-/

namespace ClickMe

/-! ## Data model -/

/-- The exceptions the modelled operations can raise. -/
inductive JSError where
  | TypeError
  | SyntaxError
  | InvalidCharacterError
  deriving DecidableEq, Repr

/-- A function value stored in a hook field: the empty function of the defaults, or a
function supplied by the caller, named by a number. -/
inductive Hook where
  | noop
  | user (id : Nat)
  deriving DecidableEq, Repr

/-- The merged settings object: `resizeLog`, `callbackBefore`, `callbackAfter`. -/
structure Settings where
  resizeLog : String
  callbackBefore : Hook
  callbackAfter : Hook
  deriving DecidableEq, Repr

/-- The `options` argument of `init`: each field is an own property or is missing. -/
structure Options where
  resizeLog : Option String
  callbackBefore : Option Hook
  callbackAfter : Option Hook
  deriving DecidableEq, Repr

/-- An element of the document: its tag name, the value of its `data-click-me` attribute
(`none` when the attribute is absent) and the tokens of its `classList`. -/
structure Element where
  tagName : String
  dataClickMe : Option String
  classList : List String
  deriving DecidableEq, Repr

/-- A registration of `eventHandler`: the event type and the capture flag. -/
structure Listener where
  type : String
  capture : Bool
  deriving DecidableEq, Repr

/-- An event object.  `target` is `none` for a null or undefined target; `some i` names the
`i`-th element of the document, and an index beyond the element table stands for a node that
is not an element (the document itself, say), which has no `hasAttribute` method.
`preventDefaultCalls` counts the calls of `preventDefault` on this event. -/
structure Event where
  type : String
  target : Option Nat
  preventDefaultCalls : Nat
  deriving DecidableEq, Repr

/-- Everything the plugin reads or writes. -/
structure Page where
  hasQuerySelector : Bool
  hasAddEventListener : Bool
  defaults : Settings
  settings : Option Settings
  elements : List Element
  documentListeners : List Listener
  windowListeners : List Listener
  console : List String
  hookCalls : List Hook
  deriving DecidableEq, Repr

/-- The result of a call without an event argument: the state left behind and the
exception raised, if any. -/
structure Outcome where
  page : Page
  thrown : Option JSError
  deriving DecidableEq, Repr

/-- The result of a call that receives an event object. -/
structure Handled where
  page : Page
  event : Event
  thrown : Option JSError
  deriving DecidableEq, Repr

/-- The result of dispatching an event: the errors the listeners raised are reported, in
order, and do not stop the dispatch. -/
structure Dispatched where
  page : Page
  event : Event
  reported : List JSError
  deriving DecidableEq, Repr

/-! ## Browser operations -/

/-- ASCII whitespace of the DOM Standard: TAB, LF, FF, CR and SPACE. -/
def isAsciiWhitespace (c : Char) : Bool :=
  c.toNat = 9 || c.toNat = 10 || c.toNat = 12 || c.toNat = 13 || c.toNat = 32

/-- The validation step shared by `DOMTokenList.add` and `DOMTokenList.remove`. -/
def validateToken (token : String) : Option JSError :=
  if token.data = [] then some JSError.SyntaxError
  else if token.data.any isAsciiWhitespace then some JSError.InvalidCharacterError
  else none

/-- The method `classList.add(token)`: validate, then append the token unless it is already there. -/
def classListAdd (classList : List String) (token : String) : Except JSError (List String) :=
  match validateToken token with
  | some err => Except.error err
  | none => Except.ok (if token ∈ classList then classList else classList ++ [token])

/-- The method `classList.remove(token)`: validate, then remove the token. -/
def classListRemove (classList : List String) (token : String) :
    Except JSError (List String) :=
  match validateToken token with
  | some err => Except.error err
  | none => Except.ok (classList.filter (fun c => decide (c ≠ token)))

/-- The method `String.prototype.toLowerCase`, on the ASCII letters.  The source only compares the
result with `'a'`, and `A` is the one other character whose lower case is `a`. -/
def toLowerCase (s : String) : String :=
  String.mk (s.data.map Char.toLower)

/-- The call `target.addEventListener(type, eventHandler, capture)`. -/
def addEventListener (ls : List Listener) (l : Listener) : List Listener :=
  if l ∈ ls then ls else ls ++ [l]

/-- The call `target.removeEventListener(type, eventHandler, capture)`. -/
def removeEventListener (ls : List Listener) (l : Listener) : List Listener :=
  ls.erase l

/-- The registration made by `document.addEventListener('click', eventHandler, false)`. -/
def clickListener : Listener := { type := "click", capture := false }

/-- The registration made by `window.addEventListener('resize', eventHandler, false)`. -/
def resizeListener : Listener := { type := "resize", capture := false }

/-- Modelled from the spec: `buoy.extend`, the shallow merge of the external library buoy
(not in this repository).  "Caller-supplied fields win; unspecified fields retain defaults";
the result is a new record and the defaults are left as they are. -/
def extend (defaults : Settings) (options : Options) : Settings :=
  { resizeLog := options.resizeLog.getD defaults.resizeLog
    callbackBefore := options.callbackBefore.getD defaults.callbackBefore
    callbackAfter := options.callbackAfter.getD defaults.callbackAfter }

/-- The `options || {}` of `init`. -/
def emptyOptions : Options :=
  { resizeLog := none, callbackBefore := none, callbackAfter := none }

/-! ## The plugin -/

/-- The feature test `var supports = !!document.querySelector && !!root.addEventListener`. -/
def supports (st : Page) : Bool :=
  st.hasQuerySelector && st.hasAddEventListener

/-- The default settings `var defaults = { resizeLog: 'The window was resized!', ... }`. -/
def defaults : Settings :=
  { resizeLog := "The window was resized!"
    callbackBefore := Hook.noop
    callbackAfter := Hook.noop }

/-- The private function `addClass(event)`. -/
def addClass (st : Page) (event : Event) : Handled :=
  match event.target with
  | none => { page := st, event := event, thrown := none }
  | some i =>
    match st.elements[i]? with
    | none => { page := st, event := event, thrown := some JSError.TypeError }
    | some toggle =>
      match toggle.dataClickMe with
      | none => { page := st, event := event, thrown := none }
      | some value =>
        let event1 : Event :=
          if toLowerCase toggle.tagName = "a" then
            { event with preventDefaultCalls := event.preventDefaultCalls + 1 }
          else event
        match classListAdd toggle.classList value with
        | Except.error err => { page := st, event := event1, thrown := some err }
        | Except.ok classes =>
          { page := { st with
              elements := st.elements.set i { toggle with classList := classes } }
            event := event1
            thrown := none }

/-- The private function `eventHandler(event)`.  The two statements `settings.callbackBefore;` and
`settings.callbackAfter;` read a property and call nothing; reading a property of a
null `settings` raises a `TypeError`. -/
def eventHandler (st : Page) (event : Event) : Handled :=
  match st.settings with
  | none => { page := st, event := event, thrown := some JSError.TypeError }
  | some _ =>
    let r : Handled :=
      if event.type = "click" then addClass st event
      else { page := st, event := event, thrown := none }
    match r.thrown with
    | some err => { page := r.page, event := r.event, thrown := some err }
    | none =>
      if event.type = "resize" then
        match r.page.settings with
        | none => { page := r.page, event := r.event, thrown := some JSError.TypeError }
        | some s =>
          { page := { r.page with console := r.page.console ++ [s.resizeLog] }
            event := r.event
            thrown := none }
      else { page := r.page, event := r.event, thrown := none }

/-- The loop of `destroy` over `document.querySelectorAll('[data-click-me]')`: in document
order, every element that carries the attribute has the class named by the attribute's
value removed.  The loop stops at the first exception. -/
def removeClasses : List Element → List Element × Option JSError
  | [] => ([], none)
  | e :: rest =>
    match e.dataClickMe with
    | none => ((e :: (removeClasses rest).1), (removeClasses rest).2)
    | some value =>
      match classListRemove e.classList value with
      | Except.error err => (e :: rest, some err)
      | Except.ok classes =>
        (({ e with classList := classes } :: (removeClasses rest).1), (removeClasses rest).2)

/-- The public method `clickMe.destroy()`. -/
def destroy (st : Page) : Outcome :=
  match st.settings with
  | none => { page := st, thrown := none }
  | some _ =>
    match (removeClasses st.elements).2 with
    | some err =>
      { page := { st with elements := (removeClasses st.elements).1 }, thrown := some err }
    | none =>
      { page := { st with
          elements := (removeClasses st.elements).1
          documentListeners := removeEventListener st.documentListeners clickListener
          windowListeners := removeEventListener st.windowListeners resizeListener
          settings := none }
        thrown := none }

/-- The public method `clickMe.init(options)`; `none` is a call without an argument. -/
def init (options : Option Options) (st : Page) : Outcome :=
  if supports st = false then { page := st, thrown := none }
  else
    match (destroy st).thrown with
    | some err => { page := (destroy st).page, thrown := some err }
    | none =>
      { page := { (destroy st).page with
          settings := some (extend (destroy st).page.defaults (options.getD emptyOptions))
          documentListeners :=
            addEventListener (destroy st).page.documentListeners clickListener
          windowListeners :=
            addEventListener (destroy st).page.windowListeners resizeListener }
        thrown := none }

/-! ## Event dispatch -/

/-- Invoke, in order, the registrations whose type is the event's type. -/
def invokeListeners : List Listener → Page → Event → List JSError → Dispatched
  | [], st, event, errs => { page := st, event := event, reported := errs }
  | l :: rest, st, event, errs =>
    if l.type = event.type then
      invokeListeners rest (eventHandler st event).page (eventHandler st event).event
        (errs ++ (eventHandler st event).thrown.toList)
    else invokeListeners rest st event errs

/-- An event that reaches the document and then the window (a click on a node of the
document bubbles through both). -/
def dispatchOnDocument (st : Page) (event : Event) : Dispatched :=
  invokeListeners (st.documentListeners ++ st.windowListeners) st event []

/-- An event fired at the window (a resize). -/
def dispatchOnWindow (st : Page) (event : Event) : Dispatched :=
  invokeListeners st.windowListeners st event []

/-! ## Reachable states -/

/-- What can happen to the page: the two public calls, the two kinds of dispatch, and an
edit of the document by the page itself. -/
inductive Step where
  | init (options : Option Options)
  | destroy
  | documentEvent (event : Event)
  | windowEvent (event : Event)
  | setElements (elements : List Element)

/-- The state after a step; an exception ends the call and the page goes on. -/
def step (st : Page) : Step → Page
  | Step.init options => (init options st).page
  | Step.destroy => (destroy st).page
  | Step.documentEvent event => (dispatchOnDocument st event).page
  | Step.windowEvent event => (dispatchOnWindow st event).page
  | Step.setElements elements => { st with elements := elements }

/-- The state right after the script has loaded: `settings` is undefined, `eventHandler`
is registered nowhere, `defaults` is the record of the source and no hook has run. -/
def Fresh (st : Page) : Prop :=
  st.settings = none ∧ st.documentListeners = [] ∧ st.windowListeners = [] ∧
    st.defaults = defaults ∧ st.hookCalls = []

instance (st : Page) : Decidable (Fresh st) := by
  unfold Fresh; infer_instance

/-- The states the page can be in. -/
inductive Reachable : Page → Prop where
  | fresh (st : Page) (h : Fresh st) : Reachable st
  | next (st : Page) (s : Step) (h : Reachable st) : Reachable (step st s)

/-- A run of `init` calls, one per entry. -/
def runInits (st : Page) (calls : List (Option Options)) : Page :=
  calls.foldl (fun acc options => (init options acc).page) st

/-- Every `data-click-me` value of the list is a token `classList` accepts. -/
def MarkersValid (elements : List Element) : Prop :=
  ∀ e ∈ elements, ∀ v, e.dataClickMe = some v → validateToken v = none

instance (elements : List Element) : Decidable (MarkersValid elements) := by
  unfold MarkersValid; infer_instance

/-! ## Auxiliary definitions for the proofs -/

/-- The event after `addClass` found the marker on `toggle`. -/
def afterPreventDefault (toggle : Element) (event : Event) : Event :=
  if toLowerCase toggle.tagName = "a" then
    { event with preventDefaultCalls := event.preventDefaultCalls + 1 }
  else event

/-- What `destroy` does to one element when nothing is raised. -/
def stripMarker (e : Element) : Element :=
  match e.dataClickMe with
  | none => e
  | some value => { e with classList := e.classList.filter (fun c => decide (c ≠ value)) }

/-- The listeners are registered exactly while a configuration is active. -/
def Wired (st : Page) : Prop :=
  (st.settings = none ∧ st.documentListeners = [] ∧ st.windowListeners = []) ∨
    (st.settings ≠ none ∧ st.documentListeners = [clickListener] ∧
      st.windowListeners = [resizeListener])

/-- What every reachable state satisfies. -/
def Inv (st : Page) : Prop :=
  st.defaults = defaults ∧ st.hookCalls = [] ∧ Wired st

/-- Two states agree outside the class lists and the console. -/
def SameWiring (st1 st2 : Page) : Prop :=
  st2.hasQuerySelector = st1.hasQuerySelector ∧
    st2.hasAddEventListener = st1.hasAddEventListener ∧
    st2.defaults = st1.defaults ∧ st2.settings = st1.settings ∧
    st2.documentListeners = st1.documentListeners ∧
    st2.windowListeners = st1.windowListeners ∧ st2.hookCalls = st1.hookCalls

/-- The page after `n` resize events in a row. -/
def dispatchRepeated : Nat → Page → Event → Page
  | 0, st, _ => st
  | n + 1, st, event => dispatchRepeated n (dispatchOnWindow st event).page event

/-! ## Sample pages -/

/-- A page right after the script has loaded, in a browser that passes the feature test. -/
def freshPage (elements : List Element) : Page :=
  { hasQuerySelector := true
    hasAddEventListener := true
    defaults := defaults
    settings := none
    elements := elements
    documentListeners := []
    windowListeners := []
    console := []
    hookCalls := [] }

/-- A page in a browser without `addEventListener`. -/
def legacyPage (elements : List Element) : Page :=
  { freshPage elements with hasAddEventListener := false }

/-- A page with the configuration `cfg` active and both listeners registered. -/
def activePage (cfg : Settings) (elements : List Element) : Page :=
  { freshPage elements with
    settings := some cfg
    documentListeners := [clickListener]
    windowListeners := [resizeListener] }

/-- A click whose target is the `i`-th element. -/
def clickOn (i : Nat) : Event :=
  { type := "click", target := some i, preventDefaultCalls := 0 }

/-- A resize event; its target is the window, which the handler never reads. -/
def resizeEvent : Event :=
  { type := "resize", target := none, preventDefaultCalls := 0 }

/-- Options that set the resize message and nothing else. -/
def messageOptions (message : String) : Option Options :=
  some { resizeLog := some message, callbackBefore := none, callbackAfter := none }

/-! ## Lemmas -/

theorem string_ne_click_resize : ("click" : String) ≠ "resize" := by decide

/-- With a click event and an active configuration, `eventHandler` does what `addClass`
does. -/
theorem eventHandler_click (st : Page) (cfg : Settings) (event : Event)
    (hcfg : st.settings = some cfg) (htype : event.type = "click") :
    eventHandler st event = addClass st event := by
  unfold eventHandler
  simp only [hcfg, htype, if_true]
  cases h : (addClass st event).thrown with
  | none => simp [h, string_ne_click_resize]; rw [← h]
  | some err => simp [h]; rw [← h]

theorem afterPreventDefault_calls (toggle : Element) (event : Event) :
    (afterPreventDefault toggle event).preventDefaultCalls =
      event.preventDefaultCalls + (if toLowerCase toggle.tagName = "a" then 1 else 0) := by
  unfold afterPreventDefault
  by_cases h : toLowerCase toggle.tagName = "a"
  · simp [h]
  · simp [h]

theorem classListAdd_valid (cl : List String) (v : String) (h : validateToken v = none) :
    classListAdd cl v = Except.ok (if v ∈ cl then cl else cl ++ [v]) := by
  unfold classListAdd; simp [h]

theorem classListAdd_invalid (cl : List String) (v : String) (err : JSError)
    (h : validateToken v = some err) : classListAdd cl v = Except.error err := by
  unfold classListAdd; simp [h]

theorem mem_add_iff (cl : List String) (v c : String) :
    c ∈ (if v ∈ cl then cl else cl ++ [v]) ↔ c ∈ cl ∨ c = v := by
  by_cases h : v ∈ cl
  · simp only [h, if_true]
    constructor
    · intro hc; exact Or.inl hc
    · rintro (hc | rfl)
      · exact hc
      · exact h
  · simp [h]

theorem addClass_marked_valid (st : Page) (event : Event) (i : Nat) (e : Element)
    (v : String) (htarget : event.target = some i) (he : st.elements[i]? = some e)
    (hv : e.dataClickMe = some v) (hval : validateToken v = none) :
    addClass st event =
      { page := { st with elements := (st.elements.set i
          { e with classList := if v ∈ e.classList then e.classList else e.classList ++ [v] }) }
        event := afterPreventDefault e event
        thrown := none } := by
  unfold addClass afterPreventDefault
  simp only [htarget, he, hv, classListAdd_valid _ _ hval]

theorem addClass_marked_invalid (st : Page) (event : Event) (i : Nat) (e : Element)
    (v : String) (err : JSError) (htarget : event.target = some i)
    (he : st.elements[i]? = some e) (hv : e.dataClickMe = some v)
    (hval : validateToken v = some err) :
    addClass st event =
      { page := st, event := afterPreventDefault e event, thrown := some err } := by
  unfold addClass afterPreventDefault
  simp only [htarget, he, hv, classListAdd_invalid _ _ _ hval]

/-! ### Frame properties of the handler -/

theorem addClass_frame (st : Page) (event : Event) :
    (addClass st event).page = { st with elements := (addClass st event).page.elements } := by
  unfold addClass
  repeat' split
  all_goals rfl

theorem addClass_congr (st1 st2 : Page) (event : Event) (h : st1.elements = st2.elements) :
    (addClass st1 event).page.elements = (addClass st2 event).page.elements ∧
      (addClass st1 event).event = (addClass st2 event).event ∧
      (addClass st1 event).thrown = (addClass st2 event).thrown := by
  unfold addClass
  rw [h]
  repeat' split
  all_goals simp_all

theorem addClass_unmarked (st : Page) (event : Event)
    (h : event.target = none ∨
      ∃ i e, event.target = some i ∧ st.elements[i]? = some e ∧ e.dataClickMe = none) :
    addClass st event = { page := st, event := event, thrown := none } := by
  unfold addClass
  rcases h with h | ⟨i, e, ht, he, hm⟩
  · simp only [h]
  · simp only [ht, he, hm]

theorem eventHandler_none (st : Page) (event : Event) (hcfg : st.settings = none) :
    eventHandler st event = { page := st, event := event, thrown := some JSError.TypeError } := by
  unfold eventHandler
  simp only [hcfg]

theorem eventHandler_resize (st : Page) (cfg : Settings) (event : Event)
    (hcfg : st.settings = some cfg) (htype : event.type = "resize") :
    eventHandler st event =
      { page := { st with console := st.console ++ [cfg.resizeLog] }
        event := event
        thrown := none } := by
  unfold eventHandler
  have hne : ¬ (("resize" : String) = "click") := by decide
  simp only [hcfg, htype, hne, if_false, if_true]

theorem eventHandler_other (st : Page) (cfg : Settings) (event : Event)
    (hcfg : st.settings = some cfg) (hc : event.type ≠ "click") (hr : event.type ≠ "resize") :
    eventHandler st event = { page := st, event := event, thrown := none } := by
  unfold eventHandler
  simp only [hcfg, hc, hr, if_false]

theorem settings_cases (st : Page) :
    st.settings = none ∨ ∃ cfg, st.settings = some cfg := by
  cases h : st.settings with
  | none => exact Or.inl rfl
  | some cfg => exact Or.inr ⟨cfg, rfl⟩

theorem eventHandler_frame (st : Page) (event : Event) :
    (eventHandler st event).page =
      { st with
        elements := (eventHandler st event).page.elements
        console := (eventHandler st event).page.console } := by
  rcases settings_cases st with hcfg | ⟨cfg, hcfg⟩
  · rw [eventHandler_none st event hcfg]
  · by_cases hc : event.type = "click"
    · rw [eventHandler_click st cfg event hcfg hc]
      have hf := addClass_frame st event
      have hcons : (addClass st event).page.console = st.console := by rw [hf]
      rw [hcons]
      exact hf
    · by_cases hr : event.type = "resize"
      · rw [eventHandler_resize st cfg event hcfg hr]
      · rw [eventHandler_other st cfg event hcfg hc hr]

/-! ### The cleanup loop -/

theorem classListRemove_valid (cl : List String) (v : String) (h : validateToken v = none) :
    classListRemove cl v = Except.ok (cl.filter (fun c => decide (c ≠ v))) := by
  unfold classListRemove; simp only [h]

theorem classListRemove_invalid (cl : List String) (v : String) (err : JSError)
    (h : validateToken v = some err) : classListRemove cl v = Except.error err := by
  unfold classListRemove; simp only [h]

theorem validateToken_cases (v : String) :
    validateToken v = none ∨ ∃ err, validateToken v = some err := by
  cases h : validateToken v with
  | none => exact Or.inl rfl
  | some err => exact Or.inr ⟨err, rfl⟩

theorem marker_cases (e : Element) :
    e.dataClickMe = none ∨ ∃ v, e.dataClickMe = some v := by
  cases h : e.dataClickMe with
  | none => exact Or.inl rfl
  | some v => exact Or.inr ⟨v, rfl⟩

theorem removeClasses_cons_unmarked (e : Element) (rest : List Element)
    (h : e.dataClickMe = none) :
    removeClasses (e :: rest) = (e :: (removeClasses rest).1, (removeClasses rest).2) := by
  rw [removeClasses]; simp only [h]

theorem removeClasses_cons_invalid (e : Element) (rest : List Element) (v : String)
    (err : JSError) (h : e.dataClickMe = some v) (hval : validateToken v = some err) :
    removeClasses (e :: rest) = (e :: rest, some err) := by
  rw [removeClasses]; simp only [h, classListRemove_invalid _ _ _ hval]

theorem removeClasses_cons_valid (e : Element) (rest : List Element) (v : String)
    (h : e.dataClickMe = some v) (hval : validateToken v = none) :
    removeClasses (e :: rest) =
      ({ e with classList := e.classList.filter (fun c => decide (c ≠ v)) } ::
        (removeClasses rest).1, (removeClasses rest).2) := by
  rw [removeClasses]; simp only [h, classListRemove_valid _ _ hval]

theorem stripMarker_unmarked (e : Element) (h : e.dataClickMe = none) : stripMarker e = e := by
  unfold stripMarker; simp only [h]

theorem stripMarker_marked (e : Element) (v : String) (h : e.dataClickMe = some v) :
    stripMarker e = { e with classList := e.classList.filter (fun c => decide (c ≠ v)) } := by
  unfold stripMarker; simp only [h]

theorem removeClasses_valid (els : List Element) (h : MarkersValid els) :
    removeClasses els = (els.map stripMarker, none) := by
  induction els with
  | nil => rfl
  | cons e rest ih =>
    have hrest : MarkersValid rest := fun x hx v hv => h x (List.mem_cons_of_mem e hx) v hv
    rcases marker_cases e with hm | ⟨v, hm⟩
    · rw [removeClasses_cons_unmarked e rest hm, ih hrest, List.map_cons,
        stripMarker_unmarked e hm]
    · have hval := h e (List.mem_cons_self e rest) v hm
      rw [removeClasses_cons_valid e rest v hm hval, ih hrest, List.map_cons,
        stripMarker_marked e v hm]

theorem removeClasses_idem (els : List Element) :
    removeClasses (removeClasses els).1 = removeClasses els := by
  induction els with
  | nil => rfl
  | cons e rest ih =>
    rcases marker_cases e with hm | ⟨v, hm⟩
    · rw [removeClasses_cons_unmarked e rest hm]
      show removeClasses (e :: (removeClasses rest).1) = _
      rw [removeClasses_cons_unmarked e _ hm, ih]
    · rcases validateToken_cases v with hval | ⟨err, hval⟩
      · rw [removeClasses_cons_valid e rest v hm hval]
        rw [removeClasses_cons_valid
          { e with classList := e.classList.filter (fun c => decide (c ≠ v)) }
          (removeClasses rest).1 v hm hval, ih]
        simp only [List.filter_filter, Bool.and_self]
      · rw [removeClasses_cons_invalid e rest v err hm hval]
        show removeClasses (e :: rest) = _
        rw [removeClasses_cons_invalid e rest v err hm hval]

theorem markersValid_map_stripMarker (els : List Element) (h : MarkersValid els) :
    MarkersValid (els.map stripMarker) := by
  intro x hx v hv
  rcases List.mem_map.mp hx with ⟨e, he, rfl⟩
  rcases marker_cases e with hm | ⟨w, hm⟩
  · rw [stripMarker_unmarked e hm] at hv
    exact h e he v hv
  · rw [stripMarker_marked e w hm] at hv
    exact h e he v hv

/-! ### `destroy` -/

theorem destroy_uninitialized (st : Page) (h : st.settings = none) :
    destroy st = { page := st, thrown := none } := by
  unfold destroy; simp only [h]

theorem destroy_thrown (st : Page) (cfg : Settings) (err : JSError)
    (h : st.settings = some cfg) (hloop : (removeClasses st.elements).2 = some err) :
    destroy st =
      { page := { st with elements := (removeClasses st.elements).1 }, thrown := some err } := by
  unfold destroy; simp only [h, hloop]

theorem destroy_done (st : Page) (cfg : Settings)
    (h : st.settings = some cfg) (hloop : (removeClasses st.elements).2 = none) :
    destroy st =
      { page := { st with
          elements := (removeClasses st.elements).1
          documentListeners := removeEventListener st.documentListeners clickListener
          windowListeners := removeEventListener st.windowListeners resizeListener
          settings := none }
        thrown := none } := by
  unfold destroy; simp only [h, hloop]

theorem loop_cases (els : List Element) :
    (removeClasses els).2 = none ∨ ∃ err, (removeClasses els).2 = some err := by
  cases h : (removeClasses els).2 with
  | none => exact Or.inl rfl
  | some err => exact Or.inr ⟨err, rfl⟩

theorem destroy_idem (st : Page) : destroy (destroy st).page = destroy st := by
  rcases settings_cases st with h | ⟨cfg, h⟩
  · rw [destroy_uninitialized st h, destroy_uninitialized st h]
  · rcases loop_cases st.elements with hl | ⟨err, hl⟩
    · rw [destroy_done st cfg h hl]
      exact destroy_uninitialized _ rfl
    · rw [destroy_thrown st cfg err h hl]
      have hl2 : (removeClasses (removeClasses st.elements).1).2 = some err := by
        rw [removeClasses_idem]; exact hl
      show destroy { st with elements := (removeClasses st.elements).1 } = _
      rw [destroy_thrown { st with elements := (removeClasses st.elements).1 } cfg err h hl2]
      simp only [removeClasses_idem]

/-! ### The wiring invariant -/

theorem erase_click : removeEventListener [clickListener] clickListener = [] := by decide

theorem erase_resize : removeEventListener [resizeListener] resizeListener = [] := by decide

theorem add_click : addEventListener [] clickListener = [clickListener] := by decide

theorem add_resize : addEventListener [] resizeListener = [resizeListener] := by decide

theorem destroy_cases (st : Page) :
    (st.settings = none ∧ destroy st = { page := st, thrown := none }) ∨
    (∃ cfg err, st.settings = some cfg ∧ (removeClasses st.elements).2 = some err ∧
      destroy st =
        { page := { st with elements := (removeClasses st.elements).1 }, thrown := some err }) ∨
    (∃ cfg, st.settings = some cfg ∧ (removeClasses st.elements).2 = none ∧
      destroy st =
        { page := { st with
            elements := (removeClasses st.elements).1
            documentListeners := removeEventListener st.documentListeners clickListener
            windowListeners := removeEventListener st.windowListeners resizeListener
            settings := none }
          thrown := none }) := by
  rcases settings_cases st with h | ⟨cfg, h⟩
  · exact Or.inl ⟨h, destroy_uninitialized st h⟩
  · rcases loop_cases st.elements with hl | ⟨err, hl⟩
    · exact Or.inr (Or.inr ⟨cfg, h, hl, destroy_done st cfg h hl⟩)
    · exact Or.inr (Or.inl ⟨cfg, err, h, hl, destroy_thrown st cfg err h hl⟩)

theorem destroy_inv (st : Page) (h : Inv st) : Inv (destroy st).page := by
  obtain ⟨hd, hh, hw⟩ := h
  rcases destroy_cases st with ⟨_, he⟩ | ⟨cfg, err, _, _, he⟩ | ⟨cfg, hs, _, he⟩
  · rw [he]; exact ⟨hd, hh, hw⟩
  · rw [he]; exact ⟨hd, hh, hw⟩
  · rw [he]
    refine ⟨hd, hh, Or.inl ⟨rfl, ?_, ?_⟩⟩
    · rcases hw with ⟨hn, _, _⟩ | ⟨_, hdoc, _⟩
      · rw [hs] at hn; cases hn
      · show removeEventListener st.documentListeners clickListener = []
        rw [hdoc]; exact erase_click
    · rcases hw with ⟨hn, _, _⟩ | ⟨_, _, hwin⟩
      · rw [hs] at hn; cases hn
      · show removeEventListener st.windowListeners resizeListener = []
        rw [hwin]; exact erase_resize

theorem destroy_returned (st : Page) (h : Inv st) (hok : (destroy st).thrown = none) :
    (destroy st).page.settings = none ∧ (destroy st).page.documentListeners = [] ∧
      (destroy st).page.windowListeners = [] := by
  have hinv := destroy_inv st h
  obtain ⟨_, _, hw⟩ := h
  rcases destroy_cases st with ⟨hs, he⟩ | ⟨cfg, err, _, _, he⟩ | ⟨cfg, hs, _, he⟩
  · rw [he]
    rcases hw with ⟨_, hdoc, hwin⟩ | ⟨hn, _, _⟩
    · exact ⟨hs, hdoc, hwin⟩
    · exact absurd hs hn
  · rw [he] at hok; cases hok
  · rcases hinv.2.2 with ⟨h1, h2, h3⟩ | ⟨hn, _, _⟩
    · exact ⟨h1, h2, h3⟩
    · rw [he] at hn; exact absurd rfl hn

theorem destroy_no_throw (st : Page) (h : st.settings = none ∨ MarkersValid st.elements) :
    (destroy st).thrown = none := by
  rcases destroy_cases st with ⟨_, he⟩ | ⟨cfg, err, hs, hl, _⟩ | ⟨cfg, _, _, he⟩
  · rw [he]
  · rcases h with h | h
    · rw [hs] at h; cases h
    · rw [removeClasses_valid _ h] at hl; cases hl
  · rw [he]

theorem destroy_defaults (st : Page) : (destroy st).page.defaults = st.defaults := by
  rcases destroy_cases st with ⟨_, he⟩ | ⟨cfg, err, _, _, he⟩ | ⟨cfg, _, _, he⟩ <;> rw [he]

theorem destroy_supports (st : Page) : supports (destroy st).page = supports st := by
  rcases destroy_cases st with ⟨_, he⟩ | ⟨cfg, err, _, _, he⟩ | ⟨cfg, _, _, he⟩ <;> rw [he] <;> rfl

/-! ### `init` -/

theorem init_unsupported (options : Option Options) (st : Page) (h : supports st = false) :
    init options st = { page := st, thrown := none } := by
  unfold init; simp only [h, if_true]

theorem init_thrown (options : Option Options) (st : Page) (err : JSError)
    (h : supports st = true) (hd : (destroy st).thrown = some err) :
    init options st = { page := (destroy st).page, thrown := some err } := by
  unfold init; simp only [h, hd]; rfl

theorem init_done (options : Option Options) (st : Page)
    (h : supports st = true) (hd : (destroy st).thrown = none) :
    init options st =
      { page := { (destroy st).page with
          settings := some (extend (destroy st).page.defaults (options.getD emptyOptions))
          documentListeners :=
            addEventListener (destroy st).page.documentListeners clickListener
          windowListeners :=
            addEventListener (destroy st).page.windowListeners resizeListener }
        thrown := none } := by
  unfold init; simp only [h, hd]; rfl

theorem thrown_cases (o : Outcome) : o.thrown = none ∨ ∃ err, o.thrown = some err := by
  cases h : o.thrown with
  | none => exact Or.inl rfl
  | some err => exact Or.inr ⟨err, rfl⟩

theorem supports_cases (st : Page) : supports st = false ∨ supports st = true := by
  cases supports st
  · exact Or.inl rfl
  · exact Or.inr rfl

theorem init_thrown_iff (options : Option Options) (st : Page) (h : supports st = true) :
    (init options st).thrown = (destroy st).thrown := by
  rcases thrown_cases (destroy st) with hd | ⟨err, hd⟩
  · rw [init_done options st h hd, hd]
  · rw [init_thrown options st err h hd, hd]

theorem init_inv (options : Option Options) (st : Page) (h : Inv st) :
    Inv (init options st).page := by
  rcases supports_cases st with hs | hs
  · rw [init_unsupported options st hs]; exact h
  · rcases thrown_cases (destroy st) with hd | ⟨err, hd⟩
    · obtain ⟨h1, h2, h3⟩ := destroy_returned st h hd
      obtain ⟨hdef, hh, _⟩ := destroy_inv st h
      rw [init_done options st hs hd]
      refine ⟨hdef, hh, Or.inr ⟨?_, ?_, ?_⟩⟩
      · intro hc; cases hc
      · show addEventListener (destroy st).page.documentListeners clickListener = _
        rw [h2]; exact add_click
      · show addEventListener (destroy st).page.windowListeners resizeListener = _
        rw [h3]; exact add_resize
    · rw [init_thrown options st err hs hd]
      exact destroy_inv st h

/-- After a call of `init` in a supported environment the listeners are in place, whether
the call returned or raised. -/
theorem init_wired (options : Option Options) (st : Page) (h : Inv st)
    (hs : supports st = true) :
    (init options st).page.settings ≠ none ∧
      (init options st).page.documentListeners = [clickListener] ∧
      (init options st).page.windowListeners = [resizeListener] := by
  rcases thrown_cases (destroy st) with hd | ⟨err, hd⟩
  · obtain ⟨h1, h2, h3⟩ := destroy_returned st h hd
    rw [init_done options st hs hd]
    refine ⟨?_, ?_, ?_⟩
    · intro hc; cases hc
    · show addEventListener (destroy st).page.documentListeners clickListener = _
      rw [h2]; exact add_click
    · show addEventListener (destroy st).page.windowListeners resizeListener = _
      rw [h3]; exact add_resize
  · rw [init_thrown options st err hs hd]
    rcases destroy_cases st with ⟨_, he⟩ | ⟨cfg, err1, hcfg, _, he⟩ | ⟨cfg, _, _, he⟩
    · rw [he] at hd; cases hd
    · rw [he]
      rcases h.2.2 with ⟨hn, _, _⟩ | ⟨hn, hdoc, hwin⟩
      · rw [hcfg] at hn; cases hn
      · exact ⟨hn, hdoc, hwin⟩
    · rw [he] at hd; cases hd

theorem init_settings (options : Option Options) (st : Page) (h : Inv st)
    (hs : supports st = true) (hok : (init options st).thrown = none) :
    (init options st).page.settings = some (extend defaults (options.getD emptyOptions)) := by
  have hd : (destroy st).thrown = none := by
    rw [← init_thrown_iff options st hs]; exact hok
  rw [init_done options st hs hd]
  show some (extend (destroy st).page.defaults (options.getD emptyOptions)) = _
  rw [destroy_defaults, h.1]

/-! ### Dispatch -/

theorem SameWiring.refl (st : Page) : SameWiring st st :=
  ⟨rfl, rfl, rfl, rfl, rfl, rfl, rfl⟩

theorem SameWiring.trans {a b c : Page} (h1 : SameWiring a b) (h2 : SameWiring b c) :
    SameWiring a c := by
  obtain ⟨a1, a2, a3, a4, a5, a6, a7⟩ := h1
  obtain ⟨b1, b2, b3, b4, b5, b6, b7⟩ := h2
  exact ⟨b1.trans a1, b2.trans a2, b3.trans a3, b4.trans a4, b5.trans a5, b6.trans a6,
    b7.trans a7⟩

theorem eventHandler_sameWiring (st : Page) (event : Event) :
    SameWiring st (eventHandler st event).page := by
  rw [eventHandler_frame st event]
  exact ⟨rfl, rfl, rfl, rfl, rfl, rfl, rfl⟩

theorem invokeListeners_sameWiring (ls : List Listener) :
    ∀ (st : Page) (event : Event) (errs : List JSError),
      SameWiring st (invokeListeners ls st event errs).page := by
  induction ls with
  | nil => intro st event errs; exact SameWiring.refl st
  | cons l rest ih =>
    intro st event errs
    by_cases h : l.type = event.type
    · rw [invokeListeners]; simp only [h, if_true]
      exact SameWiring.trans (eventHandler_sameWiring st event) (ih _ _ _)
    · rw [invokeListeners]; simp only [h, if_false]
      exact ih _ _ _

theorem inv_of_sameWiring {st1 st2 : Page} (h : SameWiring st1 st2) (hi : Inv st1) :
    Inv st2 := by
  obtain ⟨_, _, h3, h4, h5, h6, h7⟩ := h
  obtain ⟨hd, hh, hw⟩ := hi
  refine ⟨h3.trans hd, h7.trans hh, ?_⟩
  rcases hw with ⟨a, b, c⟩ | ⟨a, b, c⟩
  · exact Or.inl ⟨h4.trans a, h5.trans b, h6.trans c⟩
  · exact Or.inr ⟨by rw [h4]; exact a, h5.trans b, h6.trans c⟩

theorem dispatch_unwired (st : Page) (event : Event)
    (hdoc : st.documentListeners = []) (hwin : st.windowListeners = []) :
    dispatchOnDocument st event = { page := st, event := event, reported := [] } ∧
      dispatchOnWindow st event = { page := st, event := event, reported := [] } := by
  unfold dispatchOnDocument dispatchOnWindow
  rw [hdoc, hwin]
  exact ⟨rfl, rfl⟩

theorem invoke_resize (st : Page) (cfg : Settings) (event : Event)
    (hcfg : st.settings = some cfg) (ht : event.type = "resize") :
    invokeListeners [resizeListener] st event [] =
      { page := { st with console := st.console ++ [cfg.resizeLog] }
        event := event
        reported := [] } := by
  rw [invokeListeners]
  have hty : resizeListener.type = event.type := by rw [ht]; rfl
  simp only [hty, if_true]
  rw [eventHandler_resize st cfg event hcfg ht]
  rfl

theorem dispatch_resize (st : Page) (cfg : Settings) (event : Event)
    (hcfg : st.settings = some cfg) (hwin : st.windowListeners = [resizeListener])
    (ht : event.type = "resize") :
    dispatchOnWindow st event =
      { page := { st with console := st.console ++ [cfg.resizeLog] }
        event := event
        reported := [] } := by
  unfold dispatchOnWindow
  exact (congrArg (fun ls => invokeListeners ls st event []) hwin).trans
    (invoke_resize st cfg event hcfg ht)

theorem dispatch_document_resize (st : Page) (cfg : Settings) (event : Event)
    (hcfg : st.settings = some cfg) (hdoc : st.documentListeners = [clickListener])
    (hwin : st.windowListeners = [resizeListener]) (ht : event.type = "resize") :
    dispatchOnDocument st event =
      { page := { st with console := st.console ++ [cfg.resizeLog] }
        event := event
        reported := [] } := by
  unfold dispatchOnDocument
  have hls : st.documentListeners ++ st.windowListeners = [clickListener, resizeListener] := by
    rw [hdoc, hwin]; rfl
  have hskip : invokeListeners [clickListener, resizeListener] st event [] =
      invokeListeners [resizeListener] st event [] := by
    rw [invokeListeners]
    have hne : ¬ (clickListener.type = event.type) := by
      rw [ht]; decide
    simp only [hne, if_false]
  exact ((congrArg (fun ls => invokeListeners ls st event []) hls).trans hskip).trans
    (invoke_resize st cfg event hcfg ht)

theorem inv_of_fresh (st : Page) (h : Fresh st) : Inv st := by
  obtain ⟨h1, h2, h3, h4, h5⟩ := h
  exact ⟨h4, h5, Or.inl ⟨h1, h2, h3⟩⟩

theorem step_inv (st : Page) (s : Step) (h : Inv st) : Inv (step st s) := by
  cases s with
  | init options => exact init_inv options st h
  | destroy => exact destroy_inv st h
  | documentEvent event =>
    exact inv_of_sameWiring (invokeListeners_sameWiring _ st event []) h
  | windowEvent event =>
    exact inv_of_sameWiring (invokeListeners_sameWiring _ st event []) h
  | setElements elements => exact h

theorem reachable_inv (st : Page) (h : Reachable st) : Inv st := by
  induction h with
  | fresh st hf => exact inv_of_fresh st hf
  | next st s _ ih => exact step_inv st s ih

theorem dispatchRepeated_resize (n : Nat) :
    ∀ (st : Page) (cfg : Settings) (event : Event), st.settings = some cfg →
      st.windowListeners = [resizeListener] → event.type = "resize" →
      dispatchRepeated n st event =
        { st with console := st.console ++ List.replicate n cfg.resizeLog } := by
  induction n with
  | zero => intro st cfg event _ _ _; simp [dispatchRepeated]
  | succ n ih =>
    intro st cfg event hcfg hwin ht
    rw [dispatchRepeated, dispatch_resize st cfg event hcfg hwin ht]
    show dispatchRepeated n { st with console := st.console ++ [cfg.resizeLog] } event = _
    rw [ih { st with console := st.console ++ [cfg.resizeLog] } cfg event hcfg hwin ht]
    simp [List.replicate_succ]

/-! ### Runs of `init` -/

theorem init_supports (options : Option Options) (st : Page) :
    supports (init options st).page = supports st := by
  rcases supports_cases st with hs | hs
  · rw [init_unsupported options st hs]
  · rcases thrown_cases (destroy st) with hd | ⟨err, hd⟩
    · rw [init_done options st hs hd]
      exact destroy_supports st
    · rw [init_thrown options st err hs hd]
      exact destroy_supports st

theorem destroy_markersValid (st : Page) (h : MarkersValid st.elements) :
    MarkersValid (destroy st).page.elements := by
  rcases destroy_cases st with ⟨_, he⟩ | ⟨cfg, err, _, hl, _⟩ | ⟨cfg, _, _, he⟩
  · rw [he]; exact h
  · rw [removeClasses_valid _ h] at hl; cases hl
  · rw [he]
    show MarkersValid (removeClasses st.elements).1
    rw [removeClasses_valid _ h]
    exact markersValid_map_stripMarker _ h

theorem init_markersValid (options : Option Options) (st : Page)
    (h : MarkersValid st.elements) : MarkersValid (init options st).page.elements := by
  rcases supports_cases st with hs | hs
  · rw [init_unsupported options st hs]; exact h
  · rcases thrown_cases (destroy st) with hd | ⟨err, hd⟩
    · rw [init_done options st hs hd]
      exact destroy_markersValid st h
    · rw [init_thrown options st err hs hd]
      exact destroy_markersValid st h

theorem runInits_append (st : Page) (calls : List (Option Options))
    (options : Option Options) :
    runInits st (calls ++ [options]) = (init options (runInits st calls)).page := by
  unfold runInits
  rw [List.foldl_append]
  rfl

theorem runInits_keeps (calls : List (Option Options)) :
    ∀ st : Page, Inv st →
      Inv (runInits st calls) ∧ supports (runInits st calls) = supports st ∧
        (MarkersValid st.elements → MarkersValid (runInits st calls).elements) := by
  induction calls with
  | nil => intro st h; exact ⟨h, rfl, fun hv => hv⟩
  | cons o rest ih =>
    intro st h
    obtain ⟨h1, h2, h3⟩ := ih (init o st).page (init_inv o st h)
    refine ⟨h1, ?_, ?_⟩
    · exact h2.trans (init_supports o st)
    · intro hv
      exact h3 (init_markersValid o st hv)

/-! ## The claims -/

/-- C1, as amended.  With a configuration active, a click whose target carries
`data-click-me` with value `v` calls `preventDefault` exactly when the lower-cased tag name
is `a`, whatever `v` is, and touches no other element.  When `v` is a token `classList`
accepts (not empty, no ASCII whitespace) the handler returns and the target's class set is
the previous one with `v` added; otherwise `classList.add` raises and the page is unchanged.
The state is arbitrary, so it does not matter when the element entered the document. -/
theorem click_marked_adds_class (st : Page) (cfg : Settings) (event : Event) (i : Nat)
    (e : Element) (v : String)
    (hcfg : st.settings = some cfg) (htype : event.type = "click")
    (htarget : event.target = some i) (he : st.elements[i]? = some e)
    (hv : e.dataClickMe = some v) :
    (eventHandler st event).event.preventDefaultCalls =
        event.preventDefaultCalls + (if toLowerCase e.tagName = "a" then 1 else 0)
    ∧ (∀ j, j ≠ i → (eventHandler st event).page.elements[j]? = st.elements[j]?)
    ∧ (validateToken v = none →
        (eventHandler st event).thrown = none ∧
        ∃ e1, (eventHandler st event).page.elements[i]? = some e1 ∧
          e1.tagName = e.tagName ∧ e1.dataClickMe = e.dataClickMe ∧
          ∀ c, c ∈ e1.classList ↔ c ∈ e.classList ∨ c = v)
    ∧ (∀ err, validateToken v = some err →
        (eventHandler st event).thrown = some err ∧ (eventHandler st event).page = st) := by
  rw [eventHandler_click st cfg event hcfg htype]
  have hi : i < st.elements.length := by
    rcases Nat.lt_or_ge i st.elements.length with h | h
    · exact h
    · rw [List.getElem?_eq_none h] at he; cases he
  cases hval : validateToken v with
  | none =>
    rw [addClass_marked_valid st event i e v htarget he hv hval]
    refine ⟨afterPreventDefault_calls e event, ?_, ?_, ?_⟩
    · intro j hj
      simp [List.getElem?_set_ne (Ne.symm hj)]
    · intro _
      refine ⟨rfl,
        { e with classList := if v ∈ e.classList then e.classList else e.classList ++ [v] },
        ?_, rfl, rfl, ?_⟩
      · simp [hi]
      · intro c; exact mem_add_iff _ _ _
    · intro err herr; cases herr
  | some err0 =>
    rw [addClass_marked_invalid st event i e v err0 htarget he hv hval]
    refine ⟨afterPreventDefault_calls e event, ?_, ?_, ?_⟩
    · intro j _; rfl
    · intro h; cases h
    · intro err herr; cases herr; exact ⟨rfl, rfl⟩

/-- C1, witness: a click on `<a data-click-me="active">` suppresses the default action, a
click on `<span data-click-me="active">` does not. -/
theorem click_marked_adds_class_witness :
    (eventHandler (activePage defaults [⟨"A", some "active", []⟩]) (clickOn 0)).event.preventDefaultCalls
        = 0 + 1
    ∧ (eventHandler (activePage defaults [⟨"SPAN", some "active", []⟩]) (clickOn 0)).event.preventDefaultCalls
        = 0 + 0
    ∧ (eventHandler (activePage defaults [⟨"A", some "active", []⟩]) (clickOn 0)).thrown = none :=
  ⟨(click_marked_adds_class (activePage defaults [⟨"A", some "active", []⟩]) defaults
      (clickOn 0) 0 ⟨"A", some "active", []⟩ "active" rfl rfl rfl rfl rfl).1,
    (click_marked_adds_class (activePage defaults [⟨"SPAN", some "active", []⟩]) defaults
      (clickOn 0) 0 ⟨"SPAN", some "active", []⟩ "active" rfl rfl rfl rfl rfl).1,
    ((click_marked_adds_class (activePage defaults [⟨"A", some "active", []⟩]) defaults
      (clickOn 0) 0 ⟨"A", some "active", []⟩ "active" rfl rfl rfl rfl rfl).2.2.1
        (by decide)).1⟩

/-- C1, counterexample: `<a data-click-me="" class="x">`.  `classList.add("")` raises a
`SyntaxError`, the class list stays `x`, and so the class set is not the previous one with
the attribute's value added. -/
theorem click_empty_marker_counterexample :
    (eventHandler (activePage defaults [⟨"A", some "", ["x"]⟩]) (clickOn 0)).thrown
        = some JSError.SyntaxError
    ∧ (eventHandler (activePage defaults [⟨"A", some "", ["x"]⟩]) (clickOn 0)).page.elements
        = [⟨"A", some "", ["x"]⟩]
    ∧ ¬ (∃ e1 : Element,
        (eventHandler (activePage defaults [⟨"A", some "", ["x"]⟩])
          (clickOn 0)).page.elements[0]? = some e1 ∧
        ∀ c, c ∈ e1.classList ↔ c ∈ ["x"] ∨ c = "") := by
  refine ⟨by decide, by decide, ?_⟩
  rintro ⟨e1, h1, h2⟩
  have h0 : (eventHandler (activePage defaults [⟨"A", some "", ["x"]⟩])
      (clickOn 0)).page.elements[0]? = some ⟨"A", some "", ["x"]⟩ := by decide
  rw [h0] at h1
  cases h1
  have h3 := (h2 "").2 (Or.inr rfl)
  revert h3
  decide

/-- C2.  A click whose target is absent, or is an element without `data-click-me`, changes
nothing: the page (every class list included) and the event (no `preventDefault`) are as
before, whatever the tag name of the target. -/
theorem click_unmarked_passes_through (st : Page) (event : Event)
    (htype : event.type = "click")
    (h : event.target = none ∨
      ∃ i e, event.target = some i ∧ st.elements[i]? = some e ∧ e.dataClickMe = none) :
    addClass st event = { page := st, event := event, thrown := none }
    ∧ (eventHandler st event).page = st
    ∧ (eventHandler st event).event = event
    ∧ (st.settings ≠ none → (eventHandler st event).thrown = none) := by
  have ha := addClass_unmarked st event h
  refine ⟨ha, ?_⟩
  rcases settings_cases st with hcfg | ⟨cfg, hcfg⟩
  · rw [eventHandler_none st event hcfg]
    exact ⟨rfl, rfl, fun hn => absurd hcfg hn⟩
  · rw [eventHandler_click st cfg event hcfg htype, ha]
    exact ⟨rfl, rfl, fun _ => rfl⟩

/-- C2, witness: a hyperlink without the marker keeps its classes and its default action. -/
theorem click_unmarked_passes_through_witness :
    (eventHandler (activePage defaults [⟨"A", none, ["x"]⟩]) (clickOn 0)).page
        = activePage defaults [⟨"A", none, ["x"]⟩]
    ∧ (eventHandler (activePage defaults [⟨"A", none, ["x"]⟩]) (clickOn 0)).event = clickOn 0 :=
  ⟨(click_unmarked_passes_through (activePage defaults [⟨"A", none, ["x"]⟩]) (clickOn 0) rfl
      (Or.inr ⟨0, ⟨"A", none, ["x"]⟩, rfl, rfl, rfl⟩)).2.1,
    (click_unmarked_passes_through (activePage defaults [⟨"A", none, ["x"]⟩]) (clickOn 0) rfl
      (Or.inr ⟨0, ⟨"A", none, ["x"]⟩, rfl, rfl, rfl⟩)).2.2.1⟩

/-- C3, as amended.  When `destroy` runs with an active configuration and every
`data-click-me` value in the document is a token `classList` accepts, it returns, and every
element keeps its tag and attribute; an element that carries `data-click-me` with value `v`
has its previous class set minus `v`, an element without the attribute is unchanged. -/
theorem destroy_removes_current_marker (st : Page) (cfg : Settings)
    (hcfg : st.settings = some cfg) (hvalid : MarkersValid st.elements) :
    (destroy st).thrown = none
    ∧ (destroy st).page.elements.length = st.elements.length
    ∧ ∀ (i : Nat) (e : Element), st.elements[i]? = some e →
        ∃ e1 : Element, (destroy st).page.elements[i]? = some e1 ∧
          e1.tagName = e.tagName ∧ e1.dataClickMe = e.dataClickMe ∧
          (∀ v, e.dataClickMe = some v → ∀ c, c ∈ e1.classList ↔ (c ∈ e.classList ∧ c ≠ v)) ∧
          (e.dataClickMe = none → e1 = e) := by
  have hloop := removeClasses_valid st.elements hvalid
  have hl : (removeClasses st.elements).2 = none := by rw [hloop]
  rw [destroy_done st cfg hcfg hl]
  have hels : (removeClasses st.elements).1 = st.elements.map stripMarker := by rw [hloop]
  refine ⟨rfl, ?_, ?_⟩
  · show (removeClasses st.elements).1.length = _
    rw [hels, List.length_map]
  · intro i e he
    refine ⟨stripMarker e, ?_, ?_, ?_, ?_, ?_⟩
    · show (removeClasses st.elements).1[i]? = _
      rw [hels, List.getElem?_map, he]
      rfl
    · rcases marker_cases e with hm | ⟨w, hm⟩
      · rw [stripMarker_unmarked e hm]
      · rw [stripMarker_marked e w hm]
    · rcases marker_cases e with hm | ⟨w, hm⟩
      · rw [stripMarker_unmarked e hm]
      · rw [stripMarker_marked e w hm]
    · intro v hm c
      rw [stripMarker_marked e v hm]
      simp [List.mem_filter]
    · intro hm
      exact stripMarker_unmarked e hm

/-- C3, witness: `<span data-click-me="y" class="x">` keeps the class `x`. -/
theorem destroy_removes_current_marker_witness :
    MarkersValid [⟨"SPAN", some "y", ["x"]⟩]
    ∧ (destroy (activePage defaults [⟨"SPAN", some "y", ["x"]⟩])).thrown = none
    ∧ (destroy (activePage defaults [⟨"SPAN", some "y", ["x"]⟩])).page.elements
        = [⟨"SPAN", some "y", ["x"]⟩] :=
  ⟨by decide,
    (destroy_removes_current_marker (activePage defaults [⟨"SPAN", some "y", ["x"]⟩]) defaults
      rfl (by decide)).1,
    by decide⟩

/-- C3, counterexample: `<a data-click-me="">` followed by
`<span data-click-me="y" class="y">`.  `classList.remove("")` raises a `SyntaxError` at the
first element, the loop ends there, and the second element still has the class `y` that its
attribute names. -/
theorem destroy_invalid_marker_counterexample :
    (activePage defaults [⟨"A", some "", []⟩, ⟨"SPAN", some "y", ["y"]⟩]).settings
        = some defaults
    ∧ (destroy (activePage defaults
        [⟨"A", some "", []⟩, ⟨"SPAN", some "y", ["y"]⟩])).thrown = some JSError.SyntaxError
    ∧ (destroy (activePage defaults
        [⟨"A", some "", []⟩, ⟨"SPAN", some "y", ["y"]⟩])).page.elements[1]?
        = some ⟨"SPAN", some "y", ["y"]⟩
    ∧ "y" ∈ ["y"] := by
  decide

/-- C4, as amended.  From the state right after load, in a supported environment, any run
of one or more `init` calls (two calls `init(o1)`, `init(o2)` among them) ends with exactly
the one click registration on the document and the one resize registration on the window,
and with a configuration active.  When every `data-click-me` value in the document is a
token `classList` accepts, that configuration is the one built from the options of the last
call. -/
theorem init_sequence (st : Page) (first : Option Options) (more : List (Option Options))
    (hfresh : Fresh st) (hs : supports st = true) :
    (runInits st (first :: more)).documentListeners = [clickListener]
    ∧ (runInits st (first :: more)).windowListeners = [resizeListener]
    ∧ (runInits st (first :: more)).settings ≠ none
    ∧ (MarkersValid st.elements →
        (runInits st (first :: more)).settings =
          some (extend defaults
            (((first :: more).getLast (List.cons_ne_nil first more)).getD emptyOptions))) := by
  have hsplit := List.dropLast_append_getLast (List.cons_ne_nil first more)
  have hrun : runInits st (first :: more) =
      (init ((first :: more).getLast (List.cons_ne_nil first more))
        (runInits st (first :: more).dropLast)).page := by
    rw [← runInits_append, hsplit]
  obtain ⟨hinv, hsup, hval⟩ := runInits_keeps (first :: more).dropLast st (inv_of_fresh st hfresh)
  have hs1 : supports (runInits st (first :: more).dropLast) = true := hsup.trans hs
  obtain ⟨h1, h2, h3⟩ := init_wired ((first :: more).getLast (List.cons_ne_nil first more))
    _ hinv hs1
  rw [hrun]
  refine ⟨h2, h3, h1, ?_⟩
  intro hv
  apply init_settings _ _ hinv hs1
  rw [init_thrown_iff _ _ hs1]
  exact destroy_no_throw _ (Or.inr (hval hv))

/-- C4, witness: two calls on a page with one marked hyperlink. -/
theorem init_sequence_witness :
    Fresh (freshPage [⟨"A", some "active", []⟩])
    ∧ (runInits (freshPage [⟨"A", some "active", []⟩])
        [messageOptions "one", messageOptions "two"]).documentListeners = [clickListener]
    ∧ (runInits (freshPage [⟨"A", some "active", []⟩])
        [messageOptions "one", messageOptions "two"]).windowListeners = [resizeListener] :=
  ⟨by decide,
    (init_sequence (freshPage [⟨"A", some "active", []⟩]) (messageOptions "one")
      [messageOptions "two"] (by decide) rfl).1,
    (init_sequence (freshPage [⟨"A", some "active", []⟩]) (messageOptions "one")
      [messageOptions "two"] (by decide) rfl).2.1⟩

/-- C4, counterexample: the document holds `<a data-click-me="">`.  The second `init`
calls `destroy`, `classList.remove("")` raises, and the configuration stays the one built
from the first options. -/
theorem init_twice_keeps_first_counterexample :
    Fresh (freshPage [⟨"A", some "", []⟩])
    ∧ supports (freshPage [⟨"A", some "", []⟩]) = true
    ∧ (init (messageOptions "two")
        (init (messageOptions "one") (freshPage [⟨"A", some "", []⟩])).page).thrown
        = some JSError.SyntaxError
    ∧ (init (messageOptions "two")
        (init (messageOptions "one") (freshPage [⟨"A", some "", []⟩])).page).page.settings
        = some (extend defaults ((messageOptions "one").getD emptyOptions))
    ∧ (init (messageOptions "two")
        (init (messageOptions "one") (freshPage [⟨"A", some "", []⟩])).page).page.settings
        ≠ some (extend defaults ((messageOptions "two").getD emptyOptions)) := by
  decide

/-- C5.  From every reachable state, once `destroy` has returned the configuration is
cleared and `eventHandler` is registered neither on the document nor on the window, so an
event dispatched then changes nothing and reports nothing.  (`destroy` does return when no
configuration is active or every `data-click-me` value is a token `classList` accepts.) -/
theorem destroy_clears (st : Page) (hr : Reachable st) :
    ((st.settings = none ∨ MarkersValid st.elements) → (destroy st).thrown = none)
    ∧ ((destroy st).thrown = none →
        (destroy st).page.settings = none
        ∧ (destroy st).page.documentListeners = []
        ∧ (destroy st).page.windowListeners = []
        ∧ ∀ event : Event,
            dispatchOnDocument (destroy st).page event =
              { page := (destroy st).page, event := event, reported := [] }
            ∧ dispatchOnWindow (destroy st).page event =
              { page := (destroy st).page, event := event, reported := [] }) := by
  refine ⟨destroy_no_throw st, ?_⟩
  intro hok
  obtain ⟨h1, h2, h3⟩ := destroy_returned st (reachable_inv st hr) hok
  exact ⟨h1, h2, h3, fun event => dispatch_unwired _ event h2 h3⟩

/-- C5, witness: `init()` on a fresh page, then `destroy`, then a click and a resize. -/
theorem destroy_clears_witness :
    (destroy (step (freshPage [⟨"A", some "active", ["active"]⟩]) (Step.init none))).page.settings
        = none
    ∧ dispatchOnWindow
        (destroy (step (freshPage [⟨"A", some "active", ["active"]⟩]) (Step.init none))).page
        resizeEvent =
      { page :=
          (destroy (step (freshPage [⟨"A", some "active", ["active"]⟩]) (Step.init none))).page
        event := resizeEvent
        reported := [] } :=
  ⟨((destroy_clears (step (freshPage [⟨"A", some "active", ["active"]⟩]) (Step.init none))
      (Reachable.next _ _ (Reachable.fresh _ (by decide)))).2 (by decide)).1,
    (((destroy_clears (step (freshPage [⟨"A", some "active", ["active"]⟩]) (Step.init none))
      (Reachable.next _ _ (Reachable.fresh _ (by decide)))).2 (by decide)).2.2.2
        resizeEvent).2⟩

/-- C6.  With no configuration active `destroy` returns and changes nothing, whatever the
elements carry.  After a `destroy` that returned no configuration is active, and in every
state a second `destroy` leaves what the first one left. -/
theorem destroy_uninitialized_noop (st : Page) :
    (st.settings = none → destroy st = { page := st, thrown := none })
    ∧ ((destroy st).thrown = none → (destroy st).page.settings = none)
    ∧ destroy (destroy st).page = destroy st := by
  refine ⟨destroy_uninitialized st, ?_, destroy_idem st⟩
  intro hok
  rcases destroy_cases st with ⟨hs, he⟩ | ⟨cfg, err, _, _, he⟩ | ⟨cfg, _, _, he⟩
  · rw [he]; exact hs
  · rw [he] at hok; cases hok
  · rw [he]

/-- C6, witness: an element that carries the marker and holds the class it names is left
alone when nothing is active. -/
theorem destroy_uninitialized_noop_witness :
    (freshPage [⟨"A", some "active", ["active"]⟩]).settings = none
    ∧ destroy (freshPage [⟨"A", some "active", ["active"]⟩]) =
      { page := freshPage [⟨"A", some "active", ["active"]⟩], thrown := none } :=
  ⟨rfl, (destroy_uninitialized_noop (freshPage [⟨"A", some "active", ["active"]⟩])).1 rfl⟩

/-- C7, as amended.  In a supported environment `init` never changes the defaults record;
it returns whenever no configuration was active or every `data-click-me` value is a token
`classList` accepts; and once `init(options)` has returned, the active configuration is the
merge of `options` over the defaults (a supplied field wins, a missing one keeps the
default), and each resize event dispatched adds exactly one line to the console: the
supplied resize message, or `The window was resized!` when none was supplied (in
particular after `init(o1)` followed by an `init()` that returned). -/
theorem resize_logs_configured (st : Page) (options : Option Options) (event : Event)
    (n : Nat) (hr : Reachable st) (hs : supports st = true) (ht : event.type = "resize") :
    (init options st).page.defaults = defaults
    ∧ ((st.settings = none ∨ MarkersValid st.elements) → (init options st).thrown = none)
    ∧ ((init options st).thrown = none →
        (init options st).page.settings = some (extend defaults (options.getD emptyOptions))
        ∧ (dispatchOnWindow (init options st).page event).page.console =
            (init options st).page.console ++
              [(options.bind (fun o => o.resizeLog)).getD "The window was resized!"]
        ∧ (dispatchOnDocument (init options st).page event).page.console =
            (init options st).page.console ++
              [(options.bind (fun o => o.resizeLog)).getD "The window was resized!"]
        ∧ (dispatchRepeated n (init options st).page event).console =
            (init options st).page.console ++
              List.replicate n
                ((options.bind (fun o => o.resizeLog)).getD "The window was resized!"))
    ∧ (extend defaults (options.getD emptyOptions)).resizeLog =
        (options.bind (fun o => o.resizeLog)).getD "The window was resized!"
    ∧ (extend defaults (options.getD emptyOptions)).callbackBefore =
        (options.bind (fun o => o.callbackBefore)).getD Hook.noop
    ∧ (extend defaults (options.getD emptyOptions)).callbackAfter =
        (options.bind (fun o => o.callbackAfter)).getD Hook.noop := by
  have hinv := reachable_inv st hr
  have hmsg : (extend defaults (options.getD emptyOptions)).resizeLog =
      (options.bind (fun o => o.resizeLog)).getD "The window was resized!" := by
    cases options with
    | none => rfl
    | some o => rfl
  refine ⟨(init_inv options st hinv).1, ?_, ?_, hmsg, ?_, ?_⟩
  · intro h
    rw [init_thrown_iff options st hs]
    exact destroy_no_throw st h
  · intro hok
    have hset := init_settings options st hinv hs hok
    have hdoc := (init_wired options st hinv hs).2.1
    have hwin := (init_wired options st hinv hs).2.2
    refine ⟨hset, ?_, ?_, ?_⟩
    · rw [dispatch_resize _ _ event hset hwin ht, hmsg]
    · rw [dispatch_document_resize _ _ event hset hdoc hwin ht, hmsg]
    · rw [dispatchRepeated_resize n _ _ event hset hwin ht, hmsg]
  · cases options with
    | none => rfl
    | some o => rfl
  · cases options with
    | none => rfl
    | some o => rfl

/-- C7, witness: `init({resizeLog: "one"})`, then `init()`, then a resize: the console
receives the default message. -/
theorem resize_logs_configured_witness :
    supports (step (freshPage [⟨"A", some "active", []⟩]) (Step.init (messageOptions "one")))
        = true
    ∧ (init none
        (step (freshPage [⟨"A", some "active", []⟩])
          (Step.init (messageOptions "one")))).thrown = none
    ∧ (dispatchOnWindow
        (init none
          (step (freshPage [⟨"A", some "active", []⟩])
            (Step.init (messageOptions "one")))).page resizeEvent).page.console =
      (init none
        (step (freshPage [⟨"A", some "active", []⟩])
          (Step.init (messageOptions "one")))).page.console ++
        [(Option.bind (none : Option Options) (fun o => o.resizeLog)).getD
          "The window was resized!"] :=
  ⟨rfl, by decide,
    ((resize_logs_configured
      (step (freshPage [⟨"A", some "active", []⟩]) (Step.init (messageOptions "one")))
      none resizeEvent 1 (Reachable.next _ _ (Reachable.fresh _ (by decide))) rfl rfl).2.2.1
        (by decide)).2.1⟩

/-- C7, counterexample: the document holds `<a data-click-me="">`.  After
`init({resizeLog: "one"})` the call `init()` raises out of `destroy`, the first
configuration stays active, and a resize logs `one`, not the default message. -/
theorem resize_after_failed_init_counterexample :
    supports (freshPage [⟨"A", some "", []⟩]) = true
    ∧ (init none (init (messageOptions "one") (freshPage [⟨"A", some "", []⟩])).page).thrown
        = some JSError.SyntaxError
    ∧ (dispatchOnWindow
        (init none (init (messageOptions "one") (freshPage [⟨"A", some "", []⟩])).page).page
        resizeEvent).page.console = ["one"]
    ∧ ["one"] ≠ ["The window was resized!"] := by
  decide

/-- C8.  The handler reads the two hook fields and calls nothing: two configurations with
the same resize message give, from the same page and event, the same elements, the same
event (so the same `preventDefault` count), the same console and the same exception, and
the record of hook calls is what it was. -/
theorem eventHandler_ignores_hooks (st : Page) (cfg1 cfg2 : Settings) (event : Event)
    (h : cfg1.resizeLog = cfg2.resizeLog) :
    (eventHandler { st with settings := some cfg1 } event).page.elements =
        (eventHandler { st with settings := some cfg2 } event).page.elements
    ∧ (eventHandler { st with settings := some cfg1 } event).event =
        (eventHandler { st with settings := some cfg2 } event).event
    ∧ (eventHandler { st with settings := some cfg1 } event).page.console =
        (eventHandler { st with settings := some cfg2 } event).page.console
    ∧ (eventHandler { st with settings := some cfg1 } event).thrown =
        (eventHandler { st with settings := some cfg2 } event).thrown
    ∧ (eventHandler { st with settings := some cfg1 } event).page.hookCalls = st.hookCalls
    ∧ (eventHandler { st with settings := some cfg2 } event).page.hookCalls = st.hookCalls := by
  have hk1 := (eventHandler_sameWiring { st with settings := some cfg1 } event).2.2.2.2.2.2
  have hk2 := (eventHandler_sameWiring { st with settings := some cfg2 } event).2.2.2.2.2.2
  by_cases hc : event.type = "click"
  · rw [eventHandler_click { st with settings := some cfg1 } cfg1 event rfl hc,
      eventHandler_click { st with settings := some cfg2 } cfg2 event rfl hc] at *
    have hcongr := addClass_congr { st with settings := some cfg1 }
      { st with settings := some cfg2 } event rfl
    have f1 := congrArg Page.console (addClass_frame { st with settings := some cfg1 } event)
    have f2 := congrArg Page.console (addClass_frame { st with settings := some cfg2 } event)
    exact ⟨hcongr.1, hcongr.2.1, f1.trans f2.symm, hcongr.2.2, hk1, hk2⟩
  · by_cases hres : event.type = "resize"
    · rw [eventHandler_resize { st with settings := some cfg1 } cfg1 event rfl hres,
        eventHandler_resize { st with settings := some cfg2 } cfg2 event rfl hres, h]
      exact ⟨rfl, rfl, rfl, rfl, rfl, rfl⟩
    · rw [eventHandler_other { st with settings := some cfg1 } cfg1 event rfl hc hres,
        eventHandler_other { st with settings := some cfg2 } cfg2 event rfl hc hres]
      exact ⟨rfl, rfl, rfl, rfl, rfl, rfl⟩

/-- C8, witness: a click handled under the default hooks and under two caller hooks. -/
theorem eventHandler_ignores_hooks_witness :
    (eventHandler
        { activePage defaults [⟨"A", some "active", []⟩] with settings := some defaults }
        (clickOn 0)).page.elements =
      (eventHandler
        { activePage defaults [⟨"A", some "active", []⟩] with
          settings := some ⟨"The window was resized!", Hook.user 1, Hook.user 2⟩ }
        (clickOn 0)).page.elements :=
  (eventHandler_ignores_hooks (activePage defaults [⟨"A", some "active", []⟩]) defaults
    ⟨"The window was resized!", Hook.user 1, Hook.user 2⟩ (clickOn 0) rfl).1

/-- C9.  When the feature test fails (`document.querySelector` or `root.addEventListener`
is missing), `init` returns at once: no exception, and the page, with its configuration,
its listeners and every class list, is exactly what it was. -/
theorem init_without_support (st : Page) (options : Option Options)
    (h : st.hasQuerySelector = false ∨ st.hasAddEventListener = false) :
    supports st = false ∧ init options st = { page := st, thrown := none } := by
  have hs : supports st = false := by
    unfold supports
    rcases h with h | h
    · rw [h]; rfl
    · rw [h]; exact Bool.and_false _
  exact ⟨hs, init_unsupported options st hs⟩

/-- C9, witness: `init` leaves an element alone that `destroy` would have stripped. -/
theorem init_without_support_witness :
    init (messageOptions "one")
        { legacyPage [⟨"A", some "active", ["active"]⟩] with settings := some defaults } =
      { page := { legacyPage [⟨"A", some "active", ["active"]⟩] with settings := some defaults }
        thrown := none }
    ∧ (destroy
        { legacyPage [⟨"A", some "active", ["active"]⟩] with
          settings := some defaults }).page.elements = [⟨"A", some "active", []⟩] :=
  ⟨(init_without_support
      { legacyPage [⟨"A", some "active", ["active"]⟩] with settings := some defaults }
      (messageOptions "one") (Or.inr rfl)).2,
    by decide⟩

/-- C10, as amended.  For a `data-click-me` value `v` that `classList` accepts (not empty,
no ASCII whitespace), a click on the element returns and the class list becomes the old one
with `v` appended as one entry unless it was there already, so it grows by at most one and
holds nothing new but `v`; and when the other markers of the document are accepted too,
`destroy` returns and removes from this element the class `v` and nothing else. -/
theorem valid_token_single_class (st : Page) (cfg : Settings) (event : Event) (i : Nat)
    (e : Element) (v : String)
    (hcfg : st.settings = some cfg) (htype : event.type = "click")
    (htarget : event.target = some i) (he : st.elements[i]? = some e)
    (hv : e.dataClickMe = some v) (hval : validateToken v = none) :
    (eventHandler st event).thrown = none
    ∧ (eventHandler st event).page.elements[i]? =
        some { e with
          classList := if v ∈ e.classList then e.classList else e.classList ++ [v] }
    ∧ v ∈ (if v ∈ e.classList then e.classList else e.classList ++ [v])
    ∧ (if v ∈ e.classList then e.classList else e.classList ++ [v]).length
        ≤ e.classList.length + 1
    ∧ (∀ c, c ∈ (if v ∈ e.classList then e.classList else e.classList ++ [v]) →
        c ∈ e.classList ∨ c = v)
    ∧ (MarkersValid st.elements →
        (destroy st).thrown = none ∧
        (destroy st).page.elements[i]? =
          some { e with classList := e.classList.filter (fun c => decide (c ≠ v)) }) := by
  have hi : i < st.elements.length := by
    rcases Nat.lt_or_ge i st.elements.length with h | h
    · exact h
    · rw [List.getElem?_eq_none h] at he; cases he
  rw [eventHandler_click st cfg event hcfg htype,
    addClass_marked_valid st event i e v htarget he hv hval]
  refine ⟨rfl, ?_, ?_, ?_, ?_, ?_⟩
  · simp [hi]
  · exact (mem_add_iff _ _ _).2 (Or.inr rfl)
  · by_cases hmem : v ∈ e.classList
    · simp [hmem]
    · simp [hmem]
  · intro c hc
    exact (mem_add_iff _ _ _).1 hc
  · intro hvalid
    have hloop := removeClasses_valid st.elements hvalid
    have hl : (removeClasses st.elements).2 = none := by rw [hloop]
    have hels : (removeClasses st.elements).1 = st.elements.map stripMarker := by rw [hloop]
    rw [destroy_done st cfg hcfg hl]
    refine ⟨rfl, ?_⟩
    show (removeClasses st.elements).1[i]? = _
    rw [hels, List.getElem?_map, he]
    show some (stripMarker e) = _
    rw [stripMarker_marked e v hv]

/-- C10, witness: `<a data-click-me="active" class="x">` ends with the classes `x active`. -/
theorem valid_token_single_class_witness :
    validateToken "active" = none
    ∧ (eventHandler (activePage defaults [⟨"A", some "active", ["x"]⟩])
        (clickOn 0)).page.elements[0]? = some ⟨"A", some "active", ["x", "active"]⟩ :=
  ⟨by decide,
    (valid_token_single_class (activePage defaults [⟨"A", some "active", ["x"]⟩]) defaults
      (clickOn 0) 0 ⟨"A", some "active", ["x"]⟩ "active" rfl rfl rfl rfl rfl (by decide)).2.1⟩

/-- C10, counterexample: the values `a b` and the empty string.  `classList.add("a b")`
raises an `InvalidCharacterError` and `classList.add("")` a `SyntaxError`; the click adds
no class, and `destroy` raises the same errors from `classList.remove`. -/
theorem click_whitespace_marker_counterexample :
    (eventHandler (activePage defaults [⟨"SPAN", some "a b", []⟩]) (clickOn 0)).thrown
        = some JSError.InvalidCharacterError
    ∧ (eventHandler (activePage defaults [⟨"SPAN", some "a b", []⟩]) (clickOn 0)).page.elements
        = [⟨"SPAN", some "a b", []⟩]
    ∧ (eventHandler (activePage defaults [⟨"SPAN", some "", []⟩]) (clickOn 0)).thrown
        = some JSError.SyntaxError
    ∧ (destroy (activePage defaults [⟨"SPAN", some "a b", ["a b"]⟩])).thrown
        = some JSError.InvalidCharacterError
    ∧ (destroy (activePage defaults [⟨"SPAN", some "", []⟩])).thrown
        = some JSError.SyntaxError := by
  decide

end ClickMe
